import Mathlib

/-!
Verification development for the container-creation path of the daemon
(`src/daemon/create.go`): the creation orchestrator with compensating
rollback, shared-namespace security-label resolution, networking-config
validation, config merging, and the image delta-synthesis pipeline.

The Go code is shallowly embedded: pure helpers become Lean functions,
stateful steps become explicit state passing, collaborator calls become
oracle fields of environment structures, and fallible code returns
`Option`/`Except`.  Go `int64` counters are modelled as `Int` (the claims
under verification are not about machine overflow), and the `float64`
compression ratio is modelled by `FloatVal` which records the exact
rational quotient together with the IEEE non-finite outcomes of dividing
by zero.
-/

/-! ## String utilities (Go `strings.Split` / `strings.SplitN` on one-character separators) -/

/-- Go `strings.Split(s, sep)` for a one-character separator, on the
character list of the string. -/
def splitChar (sep : Char) : List Char → List (List Char)
  | [] => [[]]
  | c :: rest =>
    let r := splitChar sep rest
    if c = sep then [] :: r
    else
      match r with
      | [] => [[c]]
      | x :: xs => (c :: x) :: xs

/-- Go `strings.SplitN(s, sep, n)` (for `n > 0`) for a one-character
separator: at most `n` pieces, the last piece keeping the remaining
separators. -/
def splitNChar (sep : Char) (n : Nat) (s : List Char) : List (List Char) :=
  if n = 0 then []
  else
    let parts := splitChar sep s
    if parts.length ≤ n then parts
    else parts.take (n - 1) ++ [List.intercalate [sep] (parts.drop (n - 1))]

/-- First component of Go `strings.Split(s, sep)` (`con[0]` in the source). -/
def splitFirst (sep : Char) (s : String) : String :=
  String.mk ((splitChar sep s.data).headD [])

/-! ## Security Label Resolver (create.go lines 189-246) -/

/-- A container as seen by the resolver: only its SELinux process label
is consulted (`c.ProcessLabel`). -/
structure ContainerM where
  processLabel : String
deriving DecidableEq

/-- Modelled from the spec: the SELinux collaborator `label.DisableSecOpt`
(absent from src/) — §4.2 "security labeling is disabled entirely (returns a
fixed disable label set)". -/
def disableSecOpt : List String := ["disable"]

/-- Modelled from the spec: the SELinux collaborator `label.DupSecOpt`
(absent from src/) — §4.2 "fetch that peer's process label" duplicated into
a per-peer option set.  A process label of the well-formed shape
`user:role:type:level` (all four components non-empty; the level keeps any
further colons) yields the fixed four-component option set; anything else
yields the empty set. -/
def dupSecOpt (src : String) : List String :=
  if src = "" then []
  else
    match splitNChar ':' 4 src.data with
    | [u, r, t, l] =>
      if u ≠ [] ∧ r ≠ [] ∧ t ≠ [] ∧ l ≠ [] then
        ["user:" ++ String.mk u, "role:" ++ String.mk r,
         "type:" ++ String.mk t, "level:" ++ String.mk l]
      else []
    | _ => []

/-- Modelled from the spec: the namespace-mode helper `IsHost` of the API
types collaborator (absent from src/) — the mode string `host` marks a
host-shared namespace. -/
def nsModeIsHost (mode : String) : Bool := mode == "host"

/-- Modelled from the spec: the namespace-mode helper `Container` of the API
types collaborator (absent from src/) — §4.2 "shared from another container"
is the mode string `container:<name>`; the helper returns `<name>` (empty
when the mode has another shape). -/
def nsModeContainerRef (mode : String) : String :=
  match splitNChar ':' 2 mode.data with
  | [a, b] => if String.mk a = "container" then String.mk b else ""
  | _ => ""

/-- create.go lines 189-194: wrap every label with the fixed `label=`
marker (`toHostConfigSelinuxLabels`). -/
def toHostConfigSelinuxLabels (labels : List String) : List String :=
  labels.map (fun l => "label=" ++ l)

/-- The slice of `HostConfig` consulted by `generateSecurityOpt`. -/
structure HostConfigM where
  securityOpt : List String
  ipcMode : String
  pidMode : String
  privileged : Bool
deriving DecidableEq

/-- Resolver environment: the container registry lookup
(`daemon.GetContainer`), a collaborator. -/
structure SecEnv where
  getContainer : String → Except String ContainerM

/-- Resolver errors: a failed peer lookup, or the inconsistent-labels
configuration error of create.go line 240. -/
inductive SecErr where
  | getContainer (e : String)
  | inconsistentLabels
deriving DecidableEq

/-- create.go lines 237-242: the position-by-position comparison of the two
duplicated label sets (the loop runs over the indices of `pidLabel` and
reads `ipcLabel` at each of them). -/
def selinuxMismatch (pidLabel ipcLabel : List String) : Bool :=
  (List.range pidLabel.length).any (fun i => pidLabel.getD i "" != ipcLabel.getD i "")

/-- create.go lines 196-246: `generateSecurityOpt`. -/
def generateSecurityOpt (env : SecEnv) (hc : HostConfigM) : Except SecErr (List String) :=
  if hc.securityOpt.any (fun opt => splitFirst '=' opt == "label") then .ok []
  else if nsModeIsHost hc.ipcMode || nsModeIsHost hc.pidMode || hc.privileged then
    .ok (toHostConfigSelinuxLabels disableSecOpt)
  else
    let ipcContainer := nsModeContainerRef hc.ipcMode
    let pidContainer := nsModeContainerRef hc.pidMode
    if ipcContainer ≠ "" then
      match env.getContainer ipcContainer with
      | .error e => .error (.getContainer e)
      | .ok c =>
        let ipcLabel := dupSecOpt c.processLabel
        if pidContainer = "" then .ok (toHostConfigSelinuxLabels ipcLabel)
        else
          match env.getContainer pidContainer with
          | .error e => .error (.getContainer e)
          | .ok c2 =>
            let pidLabel := dupSecOpt c2.processLabel
            if pidLabel ≠ [] ∧ ipcLabel ≠ [] then
              if selinuxMismatch pidLabel ipcLabel then .error .inconsistentLabels
              else .ok (toHostConfigSelinuxLabels pidLabel)
            else .ok []
    else if pidContainer ≠ "" then
      match env.getContainer pidContainer with
      | .error e => .error (.getContainer e)
      | .ok c2 => .ok (toHostConfigSelinuxLabels (dupSecOpt c2.processLabel))
    else .ok []

/-! ## Config merging (create.go lines 296-310) -/

/-- The slice of the process config consulted by `mergeAndVerifyConfig`. -/
structure ConfigM where
  entrypoint : List String
  cmd : List String
deriving DecidableEq

/-- Modelled from the spec: the config merge collaborator (the daemon
`merge` helper, absent from src/) — §4.1 step 6 "fields unset by the caller
inherit the image's", restricted to the two process fields this
verification consults. -/
def mergeConfig (cfg : ConfigM) (img : Option ConfigM) : ConfigM :=
  match img with
  | none => cfg
  | some ic =>
    { entrypoint := if cfg.entrypoint = [] then ic.entrypoint else cfg.entrypoint
      cmd := if cfg.cmd = [] then ic.cmd else cfg.cmd }

/-- create.go lines 296-310: merge with the image defaults, clear an
entrypoint equal to `[""]`, and reject when both entrypoint and command end
up empty.  The Go function mutates the caller's config in place; the model
returns the config state after the call next to the error. -/
def mergeAndVerifyConfig (cfg : ConfigM) (img : Option ConfigM) : Option String × ConfigM :=
  let m := mergeConfig cfg img
  let m2 := if m.entrypoint = [""] then { m with entrypoint := [] } else m
  if m2.entrypoint = [] ∧ m2.cmd = [] then (some ("No command specified"), m2)
  else (none, m2)

/-! ## Networking-config validation (create.go lines 314-342) -/

/-- Static addresses of one endpoint (`IPAMConfig`). -/
structure IPAMConfigM where
  ipv4Address : String
  ipv6Address : String
deriving DecidableEq

/-- One endpoint configuration (`EndpointSettings`), possibly without an
`IPAMConfig`. -/
structure EndpointSettingsM where
  ipamConfig : Option IPAMConfigM
deriving DecidableEq

/-- The networking config: the `EndpointsConfig` map, modelled as the list
of its name/endpoint entries (the Go map values may be nil pointers). -/
structure NetworkingConfigM where
  endpointsConfig : List (String × Option EndpointSettingsM)
deriving DecidableEq

/-- Validation errors of `verifyNetworkingConfig`, carrying the payload the
Go error message carries. -/
inductive NetErr where
  | multiEndpoints (names : List String)
  | invalidIPv4 (addr : String)
  | invalidIPv6 (addr : String)
deriving DecidableEq

/-- create.go lines 320-331: address checks of the single supplied
endpoint.  The Go stdlib parser is a collaborator, abstracted as
`parseIP : String → Option Bool` returning `none` when `net.ParseIP` fails
and `some b` with `b = true` exactly when `To4()` of the result is non-nil
(the address has IPv4 form). -/
def checkEndpoint (parseIP : String → Option Bool) (v : Option EndpointSettingsM) : Option NetErr :=
  match v with
  | none => none
  | some es =>
    match es.ipamConfig with
    | none => none
    | some ipam =>
      if ipam.ipv4Address ≠ "" ∧ (parseIP ipam.ipv4Address).getD false = false then
        some (NetErr.invalidIPv4 ipam.ipv4Address)
      else if ipam.ipv6Address ≠ "" ∧
          (parseIP ipam.ipv6Address = none ∨ parseIP ipam.ipv6Address = some true) then
        some (NetErr.invalidIPv6 ipam.ipv6Address)
      else none

/-- The range loop over the values of the one-element endpoint map,
stopping at the first error. -/
def checkEndpointsList (parseIP : String → Option Bool) : List (Option EndpointSettingsM) → Option NetErr
  | [] => none
  | v :: rest =>
    match checkEndpoint parseIP v with
    | some e => some e
    | none => checkEndpointsList parseIP rest

/-- create.go lines 314-342: `verifyNetworkingConfig`. -/
def verifyNetworkingConfig (parseIP : String → Option Bool) (nw : Option NetworkingConfigM) : Option NetErr :=
  match nw with
  | none => none
  | some cfg =>
    if cfg.endpointsConfig.length = 0 then none
    else if cfg.endpointsConfig.length = 1 then
      checkEndpointsList parseIP (cfg.endpointsConfig.map Prod.snd)
    else some (NetErr.multiEndpoints (cfg.endpointsConfig.map Prod.fst))

/-! ## Container creation orchestrator (create.go lines 82-187)

The steps that follow the allocation of the in-memory container object
(`newContainer`, line 134) are modelled with one outcome oracle per
collaborator call, and the system state is the set of resources attached to
it, keyed by container id.  The pre-allocation work of `create` (image
resolution, platform checks, config and log-config merging, lines 93-132)
fails before anything is allocated and is collapsed into one `preErr`
oracle. -/

/-- Resources attached to the system, keyed by container id: writable
layers (`setRWLayer`), root and checkpoint directories (`MkdirAndChown`),
and the durable container registration (`Register`). -/
structure Resources where
  rwLayers : List String
  rootDirs : List String
  checkpointDirs : List String
  registered : List String
deriving DecidableEq

/-- Outcome oracles for one creation run: `none` is success, `some e` the
error the collaborator returns.  `cleanupErr` is the rollback's own
failure. -/
structure CreateEnv where
  preErr : Option String
  newContainerErr : Option String
  secOptErr : Option String
  rwLayerErr : Option String
  mkdirRootErr : Option String
  mkdirCheckpointErr : Option String
  hostConfigErr : Option String
  platformSettingsErr : Option String
  registerErr : Option String
  cleanupErr : Option String

/-- Drop every resource entry of the given container id. -/
def removeId (cid : String) (l : List String) : List String :=
  l.filter (fun x => x ≠ cid)

/-- Modelled from the spec: the container registry collaborator
`Cleanup(Container, removeRWLayer, removeDirs)` (`daemon.cleanupContainer`,
absent from src/) — §4.1 step 8 and §5: the compensating action removes the
container's registration, its `RWLayer` and its root/checkpoint
directories, tolerates partial allocation, and may itself fail. -/
def cleanupContainer (env : CreateEnv) (cid : String) (st : Resources) : Option String × Resources :=
  (env.cleanupErr,
   { rwLayers := removeId cid st.rwLayers
     rootDirs := removeId cid st.rootDirs
     checkpointDirs := removeId cid st.checkpointDirs
     registered := removeId cid st.registered })

/-- create.go lines 145-185: the step sequence guarded by the deferred
cleanup, in source order — `setSecurityOptions`, `setRWLayer`, the two
`MkdirAndChown` calls, `setHostConfig`,
`createContainerPlatformSpecificSettings`, `Register`.  Stops at the first
error, returning the state reached so far. -/
def createSteps (env : CreateEnv) (cid : String) (st : Resources) : Option String × Resources :=
  match env.secOptErr with
  | some e => (some e, st)
  | none =>
  match env.rwLayerErr with
  | some e => (some e, st)
  | none =>
  let st1 : Resources := { st with rwLayers := st.rwLayers ++ [cid] }
  match env.mkdirRootErr with
  | some e => (some e, st1)
  | none =>
  let st2 : Resources := { st1 with rootDirs := st1.rootDirs ++ [cid] }
  match env.mkdirCheckpointErr with
  | some e => (some e, st2)
  | none =>
  let st3 : Resources := { st2 with checkpointDirs := st2.checkpointDirs ++ [cid] }
  match env.hostConfigErr with
  | some e => (some e, st3)
  | none =>
  match env.platformSettingsErr with
  | some e => (some e, st3)
  | none =>
  match env.registerErr with
  | some e => (some e, st3)
  | none => (none, { st3 with registered := st3.registered ++ [cid] })

/-- create.go lines 82-187: `create`.  On pre-allocation or allocation
failure the error is returned with the state unchanged; once the container
object exists (line 134), any later step error triggers the deferred
cleanup of lines 137-143, whose own error is only logged — the step's error
is what the caller sees. -/
def create (env : CreateEnv) (cid : String) (st : Resources) : Except String String × Resources :=
  match env.preErr with
  | some e => (.error e, st)
  | none =>
  match env.newContainerErr with
  | some e => (.error e, st)
  | none =>
    match createSteps env cid st with
    | (some e, st2) => (.error e, (cleanupContainer env cid st2).2)
    | (none, st2) => (.ok cid, st2)

/-- No resource of the given container id is attached to the state. -/
def noTrace (cid : String) (st : Resources) : Prop :=
  cid ∉ st.rwLayers ∧ cid ∉ st.rootDirs ∧ cid ∉ st.checkpointDirs ∧ cid ∉ st.registered

/-! ## Delta synthesis (create.go lines 344-543)

`DeltaCreate` walks the destination image's `DiffID` list; each position is
either a common layer (registered as the empty layer) or a changed layer
(its packaged binary delta is registered).  The layer store, the empty
layer's identity, the produced delta layers and the layers' sizes are
collaborators, abstracted as oracles. -/

/-- A per-layer progress/registration event, recording how position `i` was
classified. -/
inductive LayerEvent where
  | common (i : Nat)
  | changed (i : Nat)
deriving DecidableEq

/-- The loop state of `DeltaCreate`: the delta image's growing `RootFS`
(list of `DiffID`s, modelled as strings), the two running size counters of
lines 389-390, and the per-position classification trail. -/
structure DeltaAcc where
  rootFS : List String
  statTotalSize : Int
  statDeltaSize : Int
  events : List LayerEvent
deriving DecidableEq

/-- Collaborator oracles for one `DeltaCreate` run:
`emptyDiffID` is the `DiffID` under which the layer store registers the
empty layer's content; `deltaLayer i` is the `DiffID` and `DiffSize` of the
delta layer registered for changed position `i`; `layerSize i` is the
original uncompressed `DiffSize` of destination layer `i`; `getErr i` any
failure of `ls.Get`/`l.DiffSize`/`l.TarStream` at changed position `i`;
`registerErr i` any failure of `ls.Register`/`newLayer.DiffSize` at
position `i`; `preErr` any failure before the loop (image lookups, tar
stream, signature); `imageCreateErr` a failure of `is.Create`. -/
structure DeltaEnv where
  emptyDiffID : String
  deltaLayer : Nat → String × Int
  layerSize : Nat → Int
  getErr : Nat → Option String
  registerErr : Nat → Option String
  preErr : Option String
  imageCreateErr : Option String

/-- create.go lines 392-508: the per-layer loop.  Position `i` is a common
layer exactly when `i < len(srcImg.RootFS.DiffIDs)` and the source `DiffID`
at `i` equals the destination one (line 401) — i.e. `src[i]? = some d`. -/
def deltaLoop (env : DeltaEnv) (src : List String) : List String → Nat → DeltaAcc → Except String DeltaAcc
  | [], _, acc => .ok acc
  | d :: rest, i, acc =>
    if src[i]? = some d then
      match env.registerErr i with
      | some e => .error e
      | none =>
        deltaLoop env src rest (i + 1)
          { rootFS := acc.rootFS ++ [env.emptyDiffID]
            statTotalSize := acc.statTotalSize
            statDeltaSize := acc.statDeltaSize
            events := acc.events ++ [LayerEvent.common i] }
    else
      match env.getErr i with
      | some e => .error e
      | none =>
        match env.registerErr i with
        | some e => .error e
        | none =>
          deltaLoop env src rest (i + 1)
            { rootFS := acc.rootFS ++ [(env.deltaLayer i).1]
              statTotalSize := acc.statTotalSize + env.layerSize i
              statDeltaSize := acc.statDeltaSize + (env.deltaLayer i).2
              events := acc.events ++ [LayerEvent.changed i] }

/-- The value of the reported `float64` ratio: an exact rational when the
division is finite, or the IEEE non-finite outcomes of dividing by zero. -/
inductive FloatVal where
  | fin (q : ℚ)
  | inf
  | neginf
  | nan
deriving DecidableEq

/-- `float64(a) / float64(b)` for integer operands, keeping the quotient
exact: division by zero yields the signed infinity (or NaN for `0/0`)
instead of trapping. -/
def floatDiv (a b : Int) : FloatVal :=
  if b = 0 then (if 0 < a then .inf else if a < 0 then .neginf else .nan)
  else .fin ((a : ℚ) / (b : ℚ))

/-- create.go lines 535-538: `deltaRatio := float64(statTotalSize) /
float64(statDeltaSize)`, overridden to `1` when `statTotalSize == 0`. -/
def reportedDeltaRatio (total delta : Int) : FloatVal :=
  if total = 0 then .fin 1 else floatDiv total delta

/-- The outcome of a successful `DeltaCreate` run: the final loop state and
the reported compression ratio. -/
structure DeltaResult where
  acc : DeltaAcc
  ratio : FloatVal
deriving DecidableEq

/-- create.go lines 346-543: `DeltaCreate` over the two images' `DiffID`
lists — the pre-loop work, the per-layer loop from the empty `RootFS` and
zeroed counters, the synthetic image creation, and the reported ratio. -/
def deltaCreate (env : DeltaEnv) (srcIDs dstIDs : List String) : Except String DeltaResult :=
  match env.preErr with
  | some e => .error e
  | none =>
    match deltaLoop env srcIDs dstIDs 0 ⟨[], 0, 0, []⟩ with
    | .error e => .error e
    | .ok acc =>
      match env.imageCreateErr with
      | some e => .error e
      | none => .ok ⟨acc, reportedDeltaRatio acc.statTotalSize acc.statDeltaSize⟩

/-- All collaborator oracles of a delta run succeed. -/
def envOK (env : DeltaEnv) : Prop :=
  env.preErr = none ∧ env.imageCreateErr = none ∧
  ∀ i, env.getErr i = none ∧ env.registerErr i = none

/-- Position `j` (of the destination walk) is a common layer: the two
images' `DiffID` sequences agree there.  For `j` below the destination's
length this is exactly the loop condition of line 401. -/
def commonPos (src dst : List String) (j : Nat) : Bool :=
  decide (src[j]? = dst[j]?)

/-- The changed positions of the destination walk. -/
def changedPositions (src dst : List String) : List Nat :=
  (List.range dst.length).filter (fun j => !commonPos src dst j)

/-- Expected delta `RootFS`: one new layer per destination position — the
empty layer's identity at common positions, the delta layer's at changed
ones. -/
def deltaRootFSSpec (env : DeltaEnv) (src dst : List String) : List String :=
  (List.range dst.length).map
    (fun j => if commonPos src dst j then env.emptyDiffID else (env.deltaLayer j).1)

/-- Expected total-size counter: the original uncompressed sizes of the
changed destination layers, and nothing else. -/
def deltaTotalSpec (env : DeltaEnv) (src dst : List String) : Int :=
  ((changedPositions src dst).map env.layerSize).sum

/-- Expected delta-size counter: the sizes of the newly registered delta
layers, and nothing else. -/
def deltaSizeSpec (env : DeltaEnv) (src dst : List String) : Int :=
  ((changedPositions src dst).map (fun j => (env.deltaLayer j).2)).sum

/-- Expected classification trail: positions in destination order, each
common or changed. -/
def deltaEventsSpec (src dst : List String) : List LayerEvent :=
  (List.range dst.length).map
    (fun j => if commonPos src dst j then LayerEvent.common j else LayerEvent.changed j)

/-! ## Concrete environments used by the closed witness runs -/

/-- A creation run whose root-directory creation fails after the `RWLayer`
was made, and whose rollback itself also fails. -/
def wCreateEnv : CreateEnv :=
  { preErr := none
    newContainerErr := none
    secOptErr := none
    rwLayerErr := none
    mkdirRootErr := some ("mkdir failed")
    mkdirCheckpointErr := none
    hostConfigErr := none
    platformSettingsErr := none
    registerErr := none
    cleanupErr := some ("cleanup failed") }

/-- A delta run with every collaborator call succeeding and position-dependent
layer sizes. -/
def wDeltaEnv : DeltaEnv :=
  { emptyDiffID := "empty"
    deltaLayer := fun i => ("d", (i : Int) + 2)
    layerSize := fun i => (i : Int) + 10
    getErr := fun _ => none
    registerErr := fun _ => none
    preErr := none
    imageCreateErr := none }

/-- A delta run whose single changed layer has original size 5 but a
registered delta layer of size 0. -/
def wDeltaEnvZeroDelta : DeltaEnv :=
  { emptyDiffID := "empty"
    deltaLayer := fun _ => ("d", 0)
    layerSize := fun _ => 5
    getErr := fun _ => none
    registerErr := fun _ => none
    preErr := none
    imageCreateErr := none }

/-- A delta run whose single changed layer has original size 0 but a
registered delta layer of size 100. -/
def wDeltaEnvZeroTotal : DeltaEnv :=
  { emptyDiffID := "empty"
    deltaLayer := fun _ => ("d", 100)
    layerSize := fun _ => 0
    getErr := fun _ => none
    registerErr := fun _ => none
    preErr := none
    imageCreateErr := none }

/-- A registry with two peer containers carrying the same well-formed
process label. -/
def wSecEnv : SecEnv :=
  { getContainer := fun n =>
      if n = "peerA" then .ok ⟨"u:r:t:s0"⟩
      else if n = "peerB" then .ok ⟨"u:r:t:s0"⟩
      else .error ("no such container") }

/-- An address parser for the closed networking runs: one known good IPv4
string, everything else unparseable. -/
def wParseIP (s : String) : Option Bool :=
  if s = "10.0.0.5" then some true else none

/-! ## Helper lemmas -/

/-- `enumFrom` written as a map over `range`: element `j` of the walk is the
pair of index `i + j` and the `j`-th list element. -/
lemma enumFrom_eq_range_map {α : Type} (d : α) :
    ∀ (l : List α) (i : Nat),
      l.enumFrom i = (List.range l.length).map (fun j => (i + j, l.getD j d)) := by
  intro l
  induction l with
  | nil => intro i; simp
  | cons a t ih =>
    intro i
    simp only [List.enumFrom, List.length_cons, List.range_succ_eq_map, List.map_cons,
      List.map_map]
    congr 1
    rw [ih (i + 1)]
    apply List.map_congr_left
    intro j _
    simp only [Function.comp_apply, List.getElem?_cons_succ, List.getD_eq_getElem?_getD]
    congr 1
    omega

/-- Closed form of the `DeltaCreate` loop when every collaborator call
succeeds: one registered layer, one classification event and the two
counter contributions per remaining position. -/
lemma deltaLoop_closed (env : DeltaEnv) (src : List String)
    (hE : ∀ i, env.getErr i = none ∧ env.registerErr i = none) :
    ∀ (rest : List String) (i : Nat) (acc : DeltaAcc),
      deltaLoop env src rest i acc = .ok
        { rootFS := acc.rootFS ++ (rest.enumFrom i).map
            (fun p => if src[p.1]? = some p.2 then env.emptyDiffID else (env.deltaLayer p.1).1)
          statTotalSize := acc.statTotalSize +
            (((rest.enumFrom i).filter (fun p => !decide (src[p.1]? = some p.2))).map
              (fun p => env.layerSize p.1)).sum
          statDeltaSize := acc.statDeltaSize +
            (((rest.enumFrom i).filter (fun p => !decide (src[p.1]? = some p.2))).map
              (fun p => (env.deltaLayer p.1).2)).sum
          events := acc.events ++ (rest.enumFrom i).map
            (fun p => if src[p.1]? = some p.2 then LayerEvent.common p.1
                      else LayerEvent.changed p.1) } := by
  intro rest
  induction rest with
  | nil => intro i acc; simp [deltaLoop, List.enumFrom]
  | cons d rest ih =>
    intro i acc
    by_cases h : src[i]? = some d
    · simp only [deltaLoop, if_pos h, (hE i).2]
      rw [ih (i + 1)]
      simp [List.enumFrom, h, List.append_assoc, add_assoc]
    · simp only [deltaLoop, if_neg h, (hE i).1, (hE i).2]
      rw [ih (i + 1)]
      simp [List.enumFrom, h, List.append_assoc, add_assoc]

/-- Map over the zero-based `enumFrom` walk, rewritten as a map over the
position range. -/
lemma enumFrom_zero_map {β : Type} (dst : List String) (F : Nat × String → β) (G : Nat → β)
    (h : ∀ j, j < dst.length → F (j, dst.getD j "") = G j) :
    (dst.enumFrom 0).map F = (List.range dst.length).map G := by
  rw [enumFrom_eq_range_map "" dst 0, List.map_map]
  apply List.map_congr_left
  intro j hj
  have hj2 := List.mem_range.mp hj
  simpa using h j hj2

/-- Filter-then-map over the zero-based `enumFrom` walk, rewritten over the
position range. -/
lemma enumFrom_zero_filter_map {β : Type} (dst : List String) (p : Nat × String → Bool)
    (q : Nat → Bool) (F : Nat × String → β) (G : Nat → β)
    (hp : ∀ j, j < dst.length → p (j, dst.getD j "") = q j)
    (hF : ∀ j, j < dst.length → F (j, dst.getD j "") = G j) :
    ((dst.enumFrom 0).filter p).map F = ((List.range dst.length).filter q).map G := by
  rw [enumFrom_eq_range_map "" dst 0, List.filter_map, List.map_map]
  rw [show (List.range dst.length).filter (p ∘ fun j => (0 + j, dst.getD j "")) =
        (List.range dst.length).filter q from
      List.filter_congr (fun j hj => by
        have hj2 := List.mem_range.mp hj
        simpa using hp j hj2)]
  apply List.map_congr_left
  intro j hj
  have hj2 := List.mem_range.mp (List.mem_filter.mp hj).1
  simpa using hF j hj2

/-- Master lemma: when every collaborator call succeeds, `DeltaCreate`
returns exactly the position-indexed `RootFS`, counters, events and
reported ratio. -/
lemma deltaCreate_ok (env : DeltaEnv) (src dst : List String) (hE : envOK env) :
    deltaCreate env src dst = .ok
      ⟨⟨deltaRootFSSpec env src dst, deltaTotalSpec env src dst,
        deltaSizeSpec env src dst, deltaEventsSpec src dst⟩,
       reportedDeltaRatio (deltaTotalSpec env src dst) (deltaSizeSpec env src dst)⟩ := by
  obtain ⟨h1, h2, h3⟩ := hE
  have hsome : ∀ j, j < dst.length → dst[j]? = some (dst.getD j "") := by
    intro j hj
    rw [List.getD_eq_getElem _ _ hj, List.getElem?_eq_getElem hj]
  have hroot : (dst.enumFrom 0).map
      (fun p => if src[p.1]? = some p.2 then env.emptyDiffID else (env.deltaLayer p.1).1) =
      deltaRootFSSpec env src dst := by
    apply enumFrom_zero_map
    intro j hj
    simp only [commonPos, deltaRootFSSpec]
    rw [← hsome j hj]
    simp
  have hev : (dst.enumFrom 0).map
      (fun p => if src[p.1]? = some p.2 then LayerEvent.common p.1
                else LayerEvent.changed p.1) = deltaEventsSpec src dst := by
    apply enumFrom_zero_map
    intro j hj
    simp only [commonPos, deltaEventsSpec]
    rw [← hsome j hj]
    simp
  have htot : ((dst.enumFrom 0).filter (fun p => !decide (src[p.1]? = some p.2))).map
      (fun p => env.layerSize p.1) = (changedPositions src dst).map env.layerSize := by
    unfold changedPositions
    apply enumFrom_zero_filter_map
    · intro j hj
      simp only [commonPos]
      rw [← hsome j hj]
    · intro j hj
      rfl
  have hdel : ((dst.enumFrom 0).filter (fun p => !decide (src[p.1]? = some p.2))).map
      (fun p => (env.deltaLayer p.1).2) =
      (changedPositions src dst).map (fun j => (env.deltaLayer j).2) := by
    unfold changedPositions
    apply enumFrom_zero_filter_map
    · intro j hj
      simp only [commonPos]
      rw [← hsome j hj]
    · intro j hj
      rfl
  simp only [deltaCreate, h1, h2]
  rw [deltaLoop_closed env src h3 dst 0 ⟨[], 0, 0, []⟩]
  simp only [List.nil_append, zero_add, hroot, hev, htot, hdel]
  rfl

/-- The loop never reads the source list at or beyond the destination walk
bound: truncating the source there does not change the run. -/
lemma deltaLoop_take (env : DeltaEnv) (src : List String) (N : Nat) :
    ∀ (rest : List String) (i : Nat) (acc : DeltaAcc), i + rest.length ≤ N →
      deltaLoop env (src.take N) rest i acc = deltaLoop env src rest i acc := by
  intro rest
  induction rest with
  | nil => intro i acc _; rfl
  | cons d rest ih =>
    intro i acc hle
    have hiN : i < N := by
      simp only [List.length_cons] at hle
      omega
    have hidx : (src.take N)[i]? = src[i]? := by
      rw [List.getElem?_take]
      exact if_pos hiN
    simp only [deltaLoop, hidx]
    by_cases h : src[i]? = some d
    · simp only [if_pos h]
      cases env.registerErr i with
      | some e => rfl
      | none =>
        apply ih (i + 1)
        simp only [List.length_cons] at hle
        omega
    · simp only [if_neg h]
      cases env.getErr i with
      | some e => rfl
      | none =>
        cases env.registerErr i with
        | some e => rfl
        | none =>
          apply ih (i + 1)
          simp only [List.length_cons] at hle
          omega

/-- `DeltaCreate` ignores the source image's layers beyond the
destination's length. -/
lemma deltaCreate_take (env : DeltaEnv) (src dst : List String) :
    deltaCreate env (src.take dst.length) dst = deltaCreate env src dst := by
  simp only [deltaCreate]
  rw [deltaLoop_take env src dst.length dst 0 ⟨[], 0, 0, []⟩ (by omega)]

/-- Counting the positions below `k` in `range n` (for `k ≤ n`) gives
`k`. -/
lemma countP_range_lt (k : Nat) : ∀ n, k ≤ n →
    (List.range n).countP (fun j => decide (j < k)) = k := by
  intro n
  induction n with
  | zero =>
    intro h
    have hk : k = 0 := Nat.le_zero.mp h
    subst hk
    rfl
  | succ n ih =>
    intro h
    rw [List.range_succ, List.countP_append]
    by_cases hk : k ≤ n
    · rw [ih hk]
      have hnk : ¬ n < k := by omega
      simp [List.countP_cons, hnk]
    · have hkn : k = n + 1 := by omega
      subst hkn
      have hall : ∀ a ∈ List.range n, (fun j => decide (j < n + 1)) a = true := by
        intro a ha
        have := List.mem_range.mp ha
        simp
        omega
      rw [List.countP_eq_length.mpr hall, List.length_range]
      simp [List.countP_cons]

/-- The compensating cleanup leaves no resource of the cleaned container id
attached, whatever was allocated and whether or not the cleanup itself
reports an error. -/
lemma noTrace_cleanupContainer (env : CreateEnv) (cid : String) (st : Resources) :
    noTrace cid (cleanupContainer env cid st).2 := by
  simp [noTrace, cleanupContainer, removeId, List.mem_filter]

/-- The duplicated label set of any process label is either empty or has
exactly the four fixed components. -/
lemma dupSecOpt_shape (s : String) :
    dupSecOpt s = [] ∨ (dupSecOpt s).length = 4 := by
  unfold dupSecOpt
  split
  · exact Or.inl rfl
  · split
    · split
      · exact Or.inr rfl
      · exact Or.inl rfl
    · exact Or.inl rfl

/-- For label sets of equal length, the position-by-position loop finds no
mismatch exactly when the sets are equal. -/
lemma selinuxMismatch_eq_false_iff (xs ys : List String) (hlen : xs.length = ys.length) :
    selinuxMismatch xs ys = false ↔ xs = ys := by
  unfold selinuxMismatch
  constructor
  · intro h
    apply List.ext_getElem hlen
    intro n h1 h2
    by_contra hne
    have hw : (List.range xs.length).any (fun i => xs.getD i "" != ys.getD i "") = true := by
      rw [List.any_eq_true]
      refine ⟨n, List.mem_range.mpr h1, ?_⟩
      rw [List.getD_eq_getElem _ _ h1, List.getD_eq_getElem _ _ h2]
      exact bne_iff_ne.mpr hne
    rw [h] at hw
    exact Bool.false_ne_true hw
  · intro h
    subst h
    rw [List.any_eq_false]
    intro x _
    simp

/-! ## Claim theorems -/

/-- Claim C1: in every creation run in which the in-memory container object
has been allocated (line 134 succeeded) and any later step — security
labels, RWLayer creation, root/checkpoint directory creation, host-config
application, platform-specific settings, registration — returns an error,
the deferred compensating cleanup of lines 137-143 runs, so no container,
RWLayer or root/checkpoint directory of the new id remains attached, and
the error the caller sees is the failing step's error; `env.cleanupErr` is
universally quantified, so this holds even when the cleanup itself fails. -/
theorem create_rollback (env : CreateEnv) (cid : String) (st : Resources) (e : String)
    (h1 : env.preErr = none) (h2 : env.newContainerErr = none)
    (h3 : (createSteps env cid st).1 = some e) :
    (create env cid st).1 = Except.error e ∧ noTrace cid (create env cid st).2 := by
  rcases hp : createSteps env cid st with ⟨oe, st2⟩
  rw [hp] at h3
  simp only at h3
  subst h3
  simp only [create, h1, h2, hp]
  exact ⟨trivial, noTrace_cleanupContainer env cid st2⟩

/-- Witness for `create_rollback`: a concrete run whose root-directory
creation fails after the RWLayer was made, with a failing cleanup. -/
theorem create_rollback_witness :
    (create wCreateEnv "c1" ⟨[], [], [], []⟩).1 = Except.error ("mkdir failed") ∧
    noTrace "c1" (create wCreateEnv "c1" ⟨[], [], [], []⟩).2 :=
  create_rollback wCreateEnv "c1" ⟨[], [], [], []⟩ ("mkdir failed") rfl rfl rfl

/-- Claim C7: after merging the process config with the image's embedded
defaults, an entrypoint equal to the one-element list of the empty string
is cleared, and the merge step fails with the no-command error exactly when
both the resulting entrypoint and the resulting command are empty. -/
theorem merge_no_command (cfg : ConfigM) (img : Option ConfigM) :
    ((mergeConfig cfg img).entrypoint = [""] →
      (mergeAndVerifyConfig cfg img).2.entrypoint = []) ∧
    ((mergeAndVerifyConfig cfg img).1 = some ("No command specified") ↔
      (mergeAndVerifyConfig cfg img).2.entrypoint = [] ∧
      (mergeAndVerifyConfig cfg img).2.cmd = []) := by
  constructor
  · intro h
    by_cases h2 : (mergeConfig cfg img).cmd = [] <;>
      simp [mergeAndVerifyConfig, h, h2]
  · by_cases h : (mergeConfig cfg img).entrypoint = [""]
    · by_cases h2 : (mergeConfig cfg img).cmd = [] <;>
        simp [mergeAndVerifyConfig, h, h2]
    · by_cases h3 : (mergeConfig cfg img).entrypoint = [] <;>
        by_cases h2 : (mergeConfig cfg img).cmd = [] <;>
          simp [mergeAndVerifyConfig, h, h3, h2]

/-- Witness for `merge_no_command`: entrypoint `[""]` with no command and
no image is cleared and rejected. -/
theorem merge_no_command_witness :
    (mergeAndVerifyConfig ⟨[""], []⟩ none).1 = some ("No command specified") :=
  (merge_no_command ⟨[""], []⟩ none).2.mpr (by decide)

/-- Claim C9 (counterexample): the caller-supplied process config is not
left unchanged by creation — `mergeAndVerifyConfig` rewrites it in place.
With no image, entrypoint `[""]` and command `["run"]`, the config after
the call differs from the config before it. -/
theorem config_not_immutable_cx :
    (mergeAndVerifyConfig ⟨[""], ["run"]⟩ none).2 ≠ (⟨[""], ["run"]⟩ : ConfigM) := by
  decide

/-- Claim C9 (amended): the networking config is never modified, but the
process config is working state: the merge step rewrites it in place
(inheriting image defaults and clearing a `[""]` entrypoint), and the host
config is likewise adjusted in place by the defaulting steps.  With no
image the process config survives the call unchanged exactly when its
entrypoint is not the single empty string. -/
theorem config_mutation_amended (cfg : ConfigM) :
    (mergeAndVerifyConfig cfg none).2 = cfg ↔ cfg.entrypoint ≠ [""] := by
  obtain ⟨e, c⟩ := cfg
  by_cases h : e = [""]
  · subst h
    by_cases h2 : c = [] <;> simp [mergeAndVerifyConfig, mergeConfig, h2]
  · by_cases h3 : e = [] <;> by_cases h2 : c = [] <;>
      simp [mergeAndVerifyConfig, mergeConfig, h, h3, h2]

/-- Witness for `config_mutation_amended`: a config whose entrypoint is not
`[""]` passes through unchanged. -/
theorem config_mutation_amended_witness :
    (mergeAndVerifyConfig ⟨["x"], []⟩ none).2 = (⟨["x"], []⟩ : ConfigM) :=
  (config_mutation_amended ⟨["x"], []⟩).mpr (by decide)

/-- Claim C6: networking-config validation — a nil config or one with zero
endpoint configurations succeeds; two or more endpoint configurations fail
with the multi-network error listing exactly the supplied network names;
with exactly one endpoint configuration the validation is the address
check: it passes exactly when any non-empty static IPv4 address parses with
IPv4 form and any non-empty static IPv6 address parses without IPv4 form,
failing first on a bad IPv4 address and then on a bad IPv6 address. -/
theorem verify_networking (parseIP : String → Option Bool) :
    verifyNetworkingConfig parseIP none = none ∧
    (∀ cfg : NetworkingConfigM, cfg.endpointsConfig = [] →
        verifyNetworkingConfig parseIP (some cfg) = none) ∧
    (∀ cfg : NetworkingConfigM, 2 ≤ cfg.endpointsConfig.length →
        verifyNetworkingConfig parseIP (some cfg) =
          some (NetErr.multiEndpoints (cfg.endpointsConfig.map Prod.fst))) ∧
    (∀ cfg nm v, cfg.endpointsConfig = [(nm, v)] →
        verifyNetworkingConfig parseIP (some cfg) = checkEndpoint parseIP v) ∧
    (∀ v, checkEndpoint parseIP v = none ↔
        (∀ es ipam, v = some es → es.ipamConfig = some ipam →
          (ipam.ipv4Address ≠ "" → (parseIP ipam.ipv4Address).getD false = true) ∧
          (ipam.ipv6Address ≠ "" → parseIP ipam.ipv6Address = some false))) ∧
    (∀ es ipam, es.ipamConfig = some ipam → ipam.ipv4Address ≠ "" →
        (parseIP ipam.ipv4Address).getD false = false →
        checkEndpoint parseIP (some es) = some (NetErr.invalidIPv4 ipam.ipv4Address)) ∧
    (∀ es ipam, es.ipamConfig = some ipam →
        (ipam.ipv4Address = "" ∨ (parseIP ipam.ipv4Address).getD false = true) →
        ipam.ipv6Address ≠ "" →
        (parseIP ipam.ipv6Address = none ∨ parseIP ipam.ipv6Address = some true) →
        checkEndpoint parseIP (some es) = some (NetErr.invalidIPv6 ipam.ipv6Address)) := by
  refine ⟨rfl, ?_, ?_, ?_, ?_, ?_, ?_⟩
  · intro cfg h
    simp [verifyNetworkingConfig, h]
  · intro cfg h
    have h0 : ¬ cfg.endpointsConfig.length = 0 := by omega
    have h1 : ¬ cfg.endpointsConfig.length = 1 := by omega
    simp [verifyNetworkingConfig, h0, h1]
  · intro cfg nm v h
    cases hc : checkEndpoint parseIP v <;>
      simp [verifyNetworkingConfig, h, checkEndpointsList, hc]
  · intro v
    cases v with
    | none => simp [checkEndpoint]
    | some es =>
      cases hip : es.ipamConfig with
      | none =>
        constructor
        · intro _ es1 ipam he hi
          injection he with he
          subst he
          rw [hip] at hi
          exact absurd hi (by simp)
        · intro _
          simp [checkEndpoint, hip]
      | some ipam =>
        have hout :
            (∀ es1 ipam2, (some es : Option EndpointSettingsM) = some es1 →
              es1.ipamConfig = some ipam2 →
              (ipam2.ipv4Address ≠ "" → (parseIP ipam2.ipv4Address).getD false = true) ∧
              (ipam2.ipv6Address ≠ "" → parseIP ipam2.ipv6Address = some false)) ↔
             ((ipam.ipv4Address ≠ "" → (parseIP ipam.ipv4Address).getD false = true) ∧
              (ipam.ipv6Address ≠ "" → parseIP ipam.ipv6Address = some false)) := by
          constructor
          · intro h
            exact h es ipam rfl hip
          · intro h es1 ipam2 he hi
            injection he with he
            subst he
            rw [hip] at hi
            injection hi with hi
            subst hi
            exact h
        rw [hout]
        simp only [checkEndpoint, hip]
        by_cases h4 : ipam.ipv4Address = ""
        · by_cases h6 : ipam.ipv6Address = ""
          · simp [h4, h6]
          · cases hp : parseIP ipam.ipv6Address with
            | none => simp [h4, h6, hp]
            | some b => cases b <;> simp [h4, h6, hp]
        · cases hp4 : parseIP ipam.ipv4Address with
          | none => simp [h4, hp4]
          | some b4 =>
            cases b4 with
            | false => simp [h4, hp4]
            | true =>
              by_cases h6 : ipam.ipv6Address = ""
              · simp [h4, hp4, h6]
              · cases hp : parseIP ipam.ipv6Address with
                | none => simp [h4, hp4, h6, hp]
                | some b => cases b <;> simp [h4, hp4, h6, hp]
  · intro es ipam h h4 hp
    simp [checkEndpoint, h, h4, hp]
  · intro es ipam h h4or h6 hp6
    rcases h4or with h4 | h4
    · rcases hp6 with hp | hp <;> simp [checkEndpoint, h, h4, h6, hp]
    · rcases hp6 with hp | hp <;> simp [checkEndpoint, h, h4, h6, hp]

/-- Witness for `verify_networking`: a two-endpoint config fails with the
multi-network error naming exactly the two networks. -/
theorem verify_networking_witness :
    verifyNetworkingConfig wParseIP (some ⟨[("net1", none), ("net2", none)]⟩) =
      some (NetErr.multiEndpoints ["net1", "net2"]) :=
  (verify_networking wParseIP).2.2.1 ⟨[("net1", none), ("net2", none)]⟩ (by decide)

/-- Claim C3: if the two images' DiffID sequences agree at exactly the
first `k` positions and differ afterwards, the completed synthesis
registers exactly `k` empty layers — one per common position, in order,
before the first changed layer (the event trail is `common` below `k` and
`changed` from `k` on) — and the delta RootFS has one layer per destination
layer; positions at or beyond the source's length are always classified
changed, and trailing source layers beyond the destination's length are
never examined (truncating the source there changes nothing). -/
theorem delta_common_prefix (env : DeltaEnv) (src dst : List String) (k : Nat)
    (hE : envOK env) (hk1 : k ≤ dst.length)
    (hk2 : ∀ i, i < k → src[i]? = dst[i]?)
    (hk3 : ∀ i, i < dst.length → k ≤ i → src[i]? ≠ dst[i]?) :
    ∃ res, deltaCreate env src dst = .ok res ∧
      res.acc.events = (List.range dst.length).map
        (fun j => if j < k then LayerEvent.common j else LayerEvent.changed j) ∧
      res.acc.events.countP
        (fun e => match e with
          | LayerEvent.common _ => true
          | LayerEvent.changed _ => false) = k ∧
      res.acc.rootFS.length = dst.length ∧
      (∀ j, j < dst.length → src.length ≤ j → commonPos src dst j = false) ∧
      deltaCreate env (src.take dst.length) dst = deltaCreate env src dst := by
  have hcp : ∀ j, j < dst.length → commonPos src dst j = decide (j < k) := by
    intro j hj
    by_cases hjk : j < k
    · simp [commonPos, hk2 j hjk, hjk]
    · have hne := hk3 j hj (by omega)
      simp [commonPos, hne, hjk]
  have hev : deltaEventsSpec src dst = (List.range dst.length).map
      (fun j => if j < k then LayerEvent.common j else LayerEvent.changed j) := by
    unfold deltaEventsSpec
    apply List.map_congr_left
    intro j hj
    rw [hcp j (List.mem_range.mp hj)]
    by_cases hjk : j < k <;> simp [hjk]
  refine ⟨_, deltaCreate_ok env src dst hE, hev, ?_, ?_, ?_, deltaCreate_take env src dst⟩
  · show (deltaEventsSpec src dst).countP _ = k
    rw [hev, List.countP_map]
    rw [List.countP_congr (q := fun j => decide (j < k)) ?_]
    · exact countP_range_lt k dst.length hk1
    · intro x _
      by_cases hx : x < k <;> simp [hx]
  · show (deltaRootFSSpec env src dst).length = dst.length
    simp [deltaRootFSSpec]
  · intro j hj hsrc
    have h1 : src[j]? = none := List.getElem?_eq_none hsrc
    have h2 : dst[j]? = some dst[j] := List.getElem?_eq_getElem hj
    simp [commonPos, h1, h2]

/-- Witness for `delta_common_prefix`: a source and destination agreeing at
exactly the first two positions. -/
theorem delta_common_prefix_witness :
    ∃ res, deltaCreate wDeltaEnv ["a", "b", "x"] ["a", "b", "c", "d"] = .ok res ∧
      res.acc.events = (List.range (4 : Nat)).map
        (fun j => if j < 2 then LayerEvent.common j else LayerEvent.changed j) ∧
      res.acc.events.countP
        (fun e => match e with
          | LayerEvent.common _ => true
          | LayerEvent.changed _ => false) = 2 ∧
      res.acc.rootFS.length = 4 ∧
      (∀ j, j < 4 → 3 ≤ j → commonPos ["a", "b", "x"] ["a", "b", "c", "d"] j = false) ∧
      deltaCreate wDeltaEnv (["a", "b", "x"].take 4) ["a", "b", "c", "d"] =
        deltaCreate wDeltaEnv ["a", "b", "x"] ["a", "b", "c", "d"] :=
  delta_common_prefix wDeltaEnv ["a", "b", "x"] ["a", "b", "c", "d"] 2
    ⟨rfl, rfl, fun _ => ⟨rfl, rfl⟩⟩ (by decide) (by decide) (by decide)

/-- Claim C4: synthesizing a delta of an image with itself classifies every
position common, accumulates delta size 0 (and total size 0), and reports a
compression ratio of exactly 1. -/
theorem delta_same_image (env : DeltaEnv) (img : List String) (hE : envOK env) :
    ∃ res, deltaCreate env img img = .ok res ∧
      (∀ j, commonPos img img j = true) ∧
      res.acc.statTotalSize = 0 ∧
      res.acc.statDeltaSize = 0 ∧
      res.acc.events = (List.range img.length).map LayerEvent.common ∧
      res.ratio = FloatVal.fin 1 := by
  have hcp : ∀ j, commonPos img img j = true := by
    intro j
    simp [commonPos]
  have hch : changedPositions img img = [] := by
    unfold changedPositions
    rw [List.filter_eq_nil_iff]
    intro a _
    simp [hcp a]
  have htot : deltaTotalSpec env img img = 0 := by
    unfold deltaTotalSpec
    rw [hch]
    rfl
  have hdel : deltaSizeSpec env img img = 0 := by
    unfold deltaSizeSpec
    rw [hch]
    rfl
  refine ⟨_, deltaCreate_ok env img img hE, hcp, htot, hdel, ?_, ?_⟩
  · show deltaEventsSpec img img = _
    unfold deltaEventsSpec
    apply List.map_congr_left
    intro j _
    simp [hcp j]
  · show reportedDeltaRatio (deltaTotalSpec env img img) (deltaSizeSpec env img img) = _
    rw [htot, hdel]
    rfl

/-- Witness for `delta_same_image`: a two-layer image against itself. -/
theorem delta_same_image_witness :
    ∃ res, deltaCreate wDeltaEnv ["a", "b"] ["a", "b"] = .ok res ∧
      (∀ j, commonPos ["a", "b"] ["a", "b"] j = true) ∧
      res.acc.statTotalSize = 0 ∧
      res.acc.statDeltaSize = 0 ∧
      res.acc.events = (List.range (2 : Nat)).map LayerEvent.common ∧
      res.ratio = FloatVal.fin 1 :=
  delta_same_image wDeltaEnv ["a", "b"] ⟨rfl, rfl, fun _ => ⟨rfl, rfl⟩⟩

/-- Claim C8: in a completed synthesis the running total-size counter is
exactly the sum of the original uncompressed sizes of the changed
destination layers, the running delta-size counter exactly the sum of the
newly registered delta layers' sizes, and the changed positions are exactly
the non-common ones — so neither counter receives a contribution at a
common-layer position. -/
theorem delta_counters (env : DeltaEnv) (src dst : List String) (hE : envOK env) :
    ∃ res, deltaCreate env src dst = .ok res ∧
      res.acc.statTotalSize = ((changedPositions src dst).map env.layerSize).sum ∧
      res.acc.statDeltaSize =
        ((changedPositions src dst).map (fun j => (env.deltaLayer j).2)).sum ∧
      ∀ j, j ∈ changedPositions src dst ↔ j < dst.length ∧ commonPos src dst j = false := by
  refine ⟨_, deltaCreate_ok env src dst hE, rfl, rfl, ?_⟩
  intro j
  simp [changedPositions, List.mem_filter, List.mem_range]

/-- Witness for `delta_counters`: one common and one changed layer. -/
theorem delta_counters_witness :
    ∃ res, deltaCreate wDeltaEnv ["a"] ["a", "b"] = .ok res ∧
      res.acc.statTotalSize =
        ((changedPositions ["a"] ["a", "b"]).map wDeltaEnv.layerSize).sum ∧
      res.acc.statDeltaSize =
        ((changedPositions ["a"] ["a", "b"]).map (fun j => (wDeltaEnv.deltaLayer j).2)).sum ∧
      ∀ j, j ∈ changedPositions ["a"] ["a", "b"] ↔
        j < 2 ∧ commonPos ["a"] ["a", "b"] j = false :=
  delta_counters wDeltaEnv ["a"] ["a", "b"] ⟨rfl, rfl, fun _ => ⟨rfl, rfl⟩⟩

/-- Claim C2 (counterexample): the degenerate-case guard of create.go lines
536-538 is on the TOTAL size, not the delta size.  A completed run whose
single changed layer has original size 5 but registered delta size 0
reports the floating `5 / 0 = +∞`, not 1 — refuting "delta size zero gives
ratio 1"; and a run with total size 0 and delta size 100 reports 1, not
`0 / 100` — refuting "ratio equals total ÷ delta". -/
theorem delta_ratio_cx :
    (deltaCreate wDeltaEnvZeroDelta [] ["x"] =
        .ok ⟨⟨["d"], 5, 0, [LayerEvent.changed 0]⟩, FloatVal.inf⟩ ∧
      FloatVal.inf ≠ FloatVal.fin 1) ∧
    (deltaCreate wDeltaEnvZeroTotal [] ["x"] =
        .ok ⟨⟨["d"], 0, 100, [LayerEvent.changed 0]⟩, FloatVal.fin 1⟩ ∧
      FloatVal.fin 1 ≠ floatDiv 0 100) := by
  refine ⟨⟨?_, by decide⟩, ?_, ?_⟩
  · rfl
  · rfl
  · simp [floatDiv]

/-- Claim C2 (amended): the reported compression ratio equals total size ÷
delta size whenever the accumulated total size is nonzero (an IEEE float
division, so a zero delta size under a nonzero total yields +∞), and the
ratio is 1 when the accumulated total size is zero — the zero guard tests
the total size, not the delta size. -/
theorem delta_ratio_amended (env : DeltaEnv) (src dst : List String) (hE : envOK env) :
    ∃ res, deltaCreate env src dst = .ok res ∧
      res.ratio = (if deltaTotalSpec env src dst = 0 then FloatVal.fin 1
                   else floatDiv (deltaTotalSpec env src dst) (deltaSizeSpec env src dst)) :=
  ⟨_, deltaCreate_ok env src dst hE, rfl⟩

/-- Witness for `delta_ratio_amended`: a run with one common and one
changed layer. -/
theorem delta_ratio_amended_witness :
    ∃ res, deltaCreate wDeltaEnv ["a"] ["a", "b"] = .ok res ∧
      res.ratio = (if deltaTotalSpec wDeltaEnv ["a"] ["a", "b"] = 0 then FloatVal.fin 1
                   else floatDiv (deltaTotalSpec wDeltaEnv ["a"] ["a", "b"])
                     (deltaSizeSpec wDeltaEnv ["a"] ["a", "b"])) :=
  delta_ratio_amended wDeltaEnv ["a"] ["a", "b"] ⟨rfl, rfl, fun _ => ⟨rfl, rfl⟩⟩

/-- Every label set the resolver returns successfully is the empty set or a
`toHostConfigSelinuxLabels` image, so each member carries the fixed
`label=` marker. -/
lemma generateSecurityOpt_wrapped (env : SecEnv) (hc : HostConfigM) (res : List String)
    (h : generateSecurityOpt env hc = .ok res) :
    ∀ l ∈ res, ∃ core, l = "label=" ++ core := by
  intro l hl
  simp only [generateSecurityOpt] at h
  iterate 8 (all_goals try split at h)
  all_goals
    first
      | exact Except.noConfusion h
      | (injection h with h
         subst h
         exact absurd hl (by simp))
      | (injection h with h
         subst h
         simp only [toHostConfigSelinuxLabels, List.mem_map] at hl
         obtain ⟨x, -, hx⟩ := hl
         exact ⟨x, hx.symm⟩)

/-- Claim C5: when both the IPC and the PID namespace are shared from peer
containers (no explicit label override, no host sharing, not privileged,
both peer lookups succeeding, both duplicated label sets non-empty — the
configuration in which the comparison of lines 237-244 runs), resolution
fails with the inconsistent-labels error exactly when the two peers'
duplicated label sets differ at some position, and otherwise returns the
PID peer's (equal) set; and every label in any returned set is wrapped with
the fixed `label=` marker. -/
theorem security_labels_shared (env : SecEnv) (hc : HostConfigM)
    (iC pC : String) (cA cB : ContainerM)
    (h0 : hc.securityOpt.any (fun opt => splitFirst '=' opt == "label") = false)
    (h1 : nsModeIsHost hc.ipcMode = false) (h2 : nsModeIsHost hc.pidMode = false)
    (h3 : hc.privileged = false)
    (h4 : nsModeContainerRef hc.ipcMode = iC) (h5 : iC ≠ "")
    (h6 : nsModeContainerRef hc.pidMode = pC) (h7 : pC ≠ "")
    (h8 : env.getContainer iC = .ok cA) (h9 : env.getContainer pC = .ok cB)
    (h10 : dupSecOpt cA.processLabel ≠ []) (h11 : dupSecOpt cB.processLabel ≠ []) :
    (generateSecurityOpt env hc = .error SecErr.inconsistentLabels ↔
      dupSecOpt cB.processLabel ≠ dupSecOpt cA.processLabel) ∧
    (dupSecOpt cB.processLabel = dupSecOpt cA.processLabel →
      generateSecurityOpt env hc =
        .ok (toHostConfigSelinuxLabels (dupSecOpt cB.processLabel))) ∧
    (∀ env2 hc2 res2, generateSecurityOpt env2 hc2 = .ok res2 →
      ∀ l ∈ res2, ∃ core, l = "label=" ++ core) := by
  have hred : generateSecurityOpt env hc =
      (if selinuxMismatch (dupSecOpt cB.processLabel) (dupSecOpt cA.processLabel)
       then .error SecErr.inconsistentLabels
       else .ok (toHostConfigSelinuxLabels (dupSecOpt cB.processLabel))) := by
    simp only [generateSecurityOpt, h0, h1, h2, h3, h4, h6, h8, h9]
    simp [h5, h7, h10, h11]
  have hlen : (dupSecOpt cB.processLabel).length = (dupSecOpt cA.processLabel).length := by
    rcases dupSecOpt_shape cA.processLabel with ha | ha
    · exact absurd ha h10
    · rcases dupSecOpt_shape cB.processLabel with hb | hb
      · exact absurd hb h11
      · rw [ha, hb]
  refine ⟨?_, ?_, fun env2 hc2 res2 hok => generateSecurityOpt_wrapped env2 hc2 res2 hok⟩
  · rw [hred]
    cases hmm : selinuxMismatch (dupSecOpt cB.processLabel) (dupSecOpt cA.processLabel) with
    | true =>
      have hne : dupSecOpt cB.processLabel ≠ dupSecOpt cA.processLabel := by
        intro hEq
        have hf := (selinuxMismatch_eq_false_iff _ _ hlen).mpr hEq
        rw [hmm] at hf
        simp at hf
      simp [hne]
    | false =>
      have hEq := (selinuxMismatch_eq_false_iff _ _ hlen).mp hmm
      simp [hEq]
  · intro hEq
    rw [hred]
    have hf := (selinuxMismatch_eq_false_iff _ _ hlen).mpr hEq
    simp [hf]

/-- Witness for `security_labels_shared`: two peers with the identical
label `u:r:t:s0` yield that label set, wrapped, with no error. -/
theorem security_labels_shared_witness :
    generateSecurityOpt wSecEnv ⟨[], "container:peerA", "container:peerB", false⟩ =
      .ok ["label=user:u", "label=role:r", "label=type:t", "label=level:s0"] :=
  ((security_labels_shared wSecEnv ⟨[], "container:peerA", "container:peerB", false⟩
      "peerA" "peerB" ⟨"u:r:t:s0"⟩ ⟨"u:r:t:s0"⟩
      rfl rfl rfl rfl rfl (by decide) rfl (by decide)
      rfl rfl (by decide) (by decide)).2.1) rfl

/-- Claim C10: the position-by-position comparison of the two duplicated
label sets cannot index out of bounds — whenever both sets are non-empty
(the only case in which the loop of lines 237-242 runs over the PID set's
indices while reading the IPC set), the IPC set is at least as long as the
PID set, so every index the loop reads is in bounds for both sets. -/
theorem security_label_index_bounds (ipcSrc pidSrc : String)
    (hA : dupSecOpt ipcSrc ≠ []) (hB : dupSecOpt pidSrc ≠ []) :
    (dupSecOpt pidSrc).length ≤ (dupSecOpt ipcSrc).length ∧
    ∀ i, i < (dupSecOpt pidSrc).length → i < (dupSecOpt ipcSrc).length := by
  rcases dupSecOpt_shape ipcSrc with h | h
  · exact absurd h hA
  · rcases dupSecOpt_shape pidSrc with h2 | h2
    · exact absurd h2 hB
    · rw [h, h2]
      exact ⟨le_refl 4, fun i hi => hi⟩

/-- Witness for `security_label_index_bounds`: two concrete well-formed
labels. -/
theorem security_label_index_bounds_witness :
    (dupSecOpt ("a:b:c:d0")).length ≤ (dupSecOpt ("u:r:t:s0")).length ∧
    ∀ i, i < (dupSecOpt ("a:b:c:d0")).length → i < (dupSecOpt ("u:r:t:s0")).length :=
  security_label_index_bounds ("u:r:t:s0") ("a:b:c:d0") (by decide) (by decide)
